import Mathlib

/-!
Verification of the Cloud Run deployer of django-simple-deploy
(`simple_deploy/management/commands/cloudrun/deploy.py`, `deploy_messages.py`,
`templates/settings.py`).

The Python source is shallowly embedded: each relevant method becomes a pure
Lean function over the data it reads (CLI output strings, probe results, file
contents), and the theorems below settle the specification claims against
those embeddings.
-/

namespace CloudRun

/-! ## String helpers

Python's `needle in hay` substring test and `re.sub(" +", " ", s)` are used
throughout the source; we embed them as structurally recursive functions on
`List Char` so the kernel can evaluate them.
-/

/-- `isPrefixList n l` is true when `n` is a prefix of `l`. -/
def isPrefixList : List Char → List Char → Bool
  | [], _ => true
  | _ :: _, [] => false
  | c :: cs, d :: ds => c == d && isPrefixList cs ds

/-- `isInfixOfList n l` is true when `n` occurs contiguously inside `l`
(Python's `n in l` for strings). -/
def isInfixOfList : List Char → List Char → Bool
  | n, [] => n.isEmpty
  | n, d :: ds => isPrefixList n (d :: ds) || isInfixOfList n ds

/-- Python's substring test `needle in hay`. -/
def strContains (hay needle : String) : Bool :=
  isInfixOfList needle.data hay.data

/-- Auxiliary recursion for `squashSpaces`: the Bool records whether the
previous kept character was a space. -/
def squashSpacesAux : List Char → Bool → List Char
  | [], _ => []
  | c :: rest, prevSpace =>
    if c == ' ' then
      if prevSpace then squashSpacesAux rest true
      else c :: squashSpacesAux rest true
    else c :: squashSpacesAux rest false

/-- Python's `re.sub(" +", " ", s)`: every maximal run of spaces collapses to
a single space. -/
def squashSpaces (s : String) : String :=
  String.mk (squashSpacesAux s.data false)

/-- Character-wise replacement; used to embed Python's
`str.replace("_", "-")`, which for a one-character pattern and one-character
replacement is exactly a character map. -/
def replaceUnderscores (s : String) : String :=
  String.mk (s.data.map (fun c => if c == '_' then '-' else c))

/-- Fuel-indexed substring replacement (Python `str.replace` with a non-empty
pattern); the fuel starts at the length of the subject list. -/
def replaceListGo (pat repl : List Char) : Nat → List Char → List Char
  | _, [] => []
  | 0, l => l
  | Nat.succ fuel, c :: rest =>
    if isPrefixList pat (c :: rest) then
      repl ++ replaceListGo pat repl fuel ((c :: rest).drop pat.length)
    else c :: replaceListGo pat repl fuel rest

/-- Python's `str.replace(pat, repl)` for a non-empty `pat`. -/
def replaceStr (s pat repl : String) : String :=
  if pat.isEmpty then s
  else String.mk (replaceListGo pat.data repl.data s.data.length s.data)

/-- `pathlib.Path(p).name`: the last non-empty slash-separated component. -/
def pathName (p : String) : String :=
  List.getLastD ((p.splitOn "/").filter (fun x => !x.isEmpty)) ""

/-- True when `s` contains no newline character. -/
def noNewline (s : String) : Bool :=
  s.data.all (fun c => !(c == '\n'))

/-! ## Messages (`cloudrun/deploy_messages.py`)

Module-level triple-quoted strings are embedded verbatim (including the
trailing spaces present in the source); the `dedent`-wrapped f-strings are
embedded in their dedented form, which is what the functions return.
-/

/-- `deploy_messages.cancel_cloudrun` (deploy_messages.py lines 33-35). -/
def cancel_cloudrun : String :=
  "\nOkay, cancelling Cloud Run deployment.\n"

/-- `deploy_messages.cancel_no_instance` (deploy_messages.py lines 99-102). -/
def cancel_no_instance : String :=
  "\nA database instance is required for deployment. You may be able to create a database instance\nmanually, and configure it to work with this app.\n"

/-- `deploy_messages.cancel_service_name` (deploy_messages.py lines 104-109). -/
def cancel_service_name : String :=
  "\nA service name could not be generated for you that would be valid in Cloud Run. \nTo correct this, run simple-deploy again, specifying your preferred service name: \n\n  $ python manage.py simple_deploy --platform cloudrun --deployed_project_name YOURSERVICENAME\n"

/-- `deploy_messages.no_cloudrun_region` (deploy_messages.py lines 63-80);
flagged `TODO(glasnt): remove.` in the source and never referenced from
`deploy.py`. -/
def no_cloudrun_region : String :=
  "\nA configuration for the Cloud Run region could not be found.\n\nThe simple_deploy command expects that you've already configured\nthe region to deploy your project to. \n\nThe list of possible regions is available at: \n\nhttps://cloud.google.com/run/docs/locations\n\nCommonly, the default region used is \"us-central1\". \n\nConfigure the default Cloud Run region: \n\n    $ gcloud config set run/region REGION\n\nThen run simple_deploy again.\n"

/-- `deploy_messages.no_database_password(database_user, database_instance)`
(deploy_messages.py lines 214-225), after `textwrap.dedent`. -/
def no_database_password (database_user database_instance : String) : String :=
  "\nA database user exists, but there's no secret storing it's password. \nBased on this, we can't continue the process.\n\nYou can resolve this by deleting the database user, and having simple_deploy re-create it: \n\n$ gcloud sql users delete " ++ database_user ++ " --instance " ++ database_instance ++ "\n"

/-- `deploy_messages.confirm_create_instance(db_cmd)` (deploy_messages.py
lines 134-145), after `textwrap.dedent`. -/
def confirm_create_instance (db_cmd : String) : String :=
  "\nA Postgres instance is required to continue with deployment. If you confirm this,\nthe following command will be run, to create a new instance on your account:\n$ " ++ db_cmd ++ "\n"

/-! ## Existence probes (`deploy.py`) -/

/-- `PlatformDeployer._check_if_dbinstance_exists` (deploy.py lines 690-707):
classify the output of `gcloud sql instances list`.  The source takes the
instance name from `self.instance_name` and the CLI output from `run`; both
are parameters here. -/
def check_if_dbinstance_exists (instance_name output : String) : Bool :=
  if strContains output "Listed 0 items" then false
  else if strContains output instance_name then true
  else false

/-- `PlatformDeployer._check_if_db_exists` (deploy.py lines 726-743). -/
def check_if_db_exists (database_name output : String) : Bool :=
  if strContains output database_name then true else false

/-- `PlatformDeployer._check_if_dbuser_exists` (deploy.py lines 745-758). -/
def check_if_dbuser_exists (database_user output : String) : Bool :=
  if strContains output database_user then true else false

/-- `PlatformDeployer._check_if_secret_exists` (deploy.py lines 760-771). -/
def check_if_secret_exists (secret_name output : String) : Bool :=
  if strContains output secret_name then true else false

/-! ## Database user/secret phase of `_create_db` (deploy.py lines 618-655)

After probing `user_exists` and `secret_exists`, `_create_db` runs an
`if`/`elif`/`elif` chain with no final `else`, then always proceeds to
"Associating database to service".  We record the externally visible actions
of that phase; the `(user_exists, secret_exists) = (true, false)` branch
raises `CommandError(no_database_password(...))`, embedded as `Except.error`.
In `_create_db` the user is the fixed string `"django"` and the instance the
fixed string `"sd-inst"` (deploy.py lines 561-563).
-/

inductive DbUserSecretAction
  | createUser
  | createSecret
  | associateDb
deriving DecidableEq, Repr

/-- The user/secret phase of `PlatformDeployer._create_db`
(deploy.py lines 618-655). -/
def create_db_user_secret_phase (user_exists secret_exists : Bool) :
    Except String (List DbUserSecretAction) :=
  if user_exists && secret_exists then
    Except.ok [DbUserSecretAction.associateDb]
  else if user_exists && !secret_exists then
    Except.error (no_database_password "django" "sd-inst")
  else if !user_exists && !secret_exists then
    Except.ok [DbUserSecretAction.createUser, DbUserSecretAction.createSecret,
      DbUserSecretAction.associateDb]
  else
    Except.ok [DbUserSecretAction.associateDb]

/-! ## Service name derivation (`_get_service_name`, deploy.py lines 130-167)

The source replaces underscores by hyphens, computes
`ascii_service_name = anyascii(service_name)`, asks for confirmation when the
two differ — and then stores the *pre-transliteration* `service_name` in
`self.service_name` (line 167); `ascii_service_name` is used only for the
comparison.
-/

/-- Model of the external `anyascii` transliteration library (a third-party
dependency, not part of this repository), restricted to the characters this
development evaluates it on: ASCII characters map to themselves and the
accented letter used in the spec example transliterates as `anyascii` does
(`'é' ↦ "e"`); other non-ASCII characters are outside the modelled domain
and map to `""`. -/
def anyasciiChar (c : Char) : String :=
  if c.toNat < 128 then String.singleton c
  else if c == 'é' then "e"
  else ""

/-- `anyascii` applied character-wise to a string. -/
def anyascii (s : String) : String :=
  s.data.foldl (fun acc c => acc ++ anyasciiChar c) ""

/-- Result of `PlatformDeployer._get_service_name`: the value stored in
`self.service_name`, and whether the interactive confirmation path was
triggered. -/
structure ServiceNameOutcome where
  service_name : String
  confirm_triggered : Bool
deriving DecidableEq, Repr

/-- `PlatformDeployer._get_service_name` (deploy.py lines 130-167), as a
function of `self.sd.deployed_project_name` (`none`/empty meaning not
provided, per Python truthiness) and `self.sd.project_name`. -/
def get_service_name (deployed_project_name : Option String)
    (sd_project_name : String) : ServiceNameOutcome :=
  let project_name :=
    match deployed_project_name with
    | some n => if n.isEmpty then sd_project_name else n
    | none => sd_project_name
  let service_name := project_name
  let service_name :=
    if strContains service_name "_" then replaceUnderscores service_name
    else service_name
  let ascii_service_name := anyascii service_name
  { service_name := service_name,
    confirm_triggered := ascii_service_name != service_name }

/-! ## Confirmation prompts (deploy.py lines 153-163, 468-485, 709-724)

`sys.exit()` with no argument terminates the process with exit status 0;
raising `django.core.management.base.CommandError` terminates the management
command with a non-zero exit status (Django's `BaseCommand.execute` policy).
-/

inductive PromptOutcome
  | proceed
  | exitClean (msg : String)
  | commandError (msg : String)
deriving DecidableEq, Repr

/-- True exactly on the `exitClean` outcome (process exit status 0). -/
def PromptOutcome.isCleanExit : PromptOutcome → Bool
  | PromptOutcome.exitClean _ => true
  | _ => false

/-- `PlatformDeployer.confirm_preliminary` (deploy.py lines 468-485) as a
function of `self.sd.unit_testing` and the user's answer. -/
def confirm_preliminary_outcome (unit_testing confirmed : Bool) : PromptOutcome :=
  if unit_testing then PromptOutcome.proceed
  else if confirmed then PromptOutcome.proceed
  else PromptOutcome.exitClean cancel_cloudrun

/-- The confirmation branch of `PlatformDeployer._get_service_name`
(deploy.py lines 153-163) as a function of the user's answer, for the case
where the transliterated name differs from the original. -/
def service_name_confirm_outcome (confirmed : Bool) : PromptOutcome :=
  if confirmed then PromptOutcome.proceed
  else PromptOutcome.exitClean cancel_service_name

/-- `PlatformDeployer._confirm_create_instance` (deploy.py lines 709-724) as
a function of `self.sd.unit_testing` and the user's answer.  On decline the
source raises `CommandError(cloudrun_msgs.cancel_no_instance)`. -/
def confirm_create_instance_outcome (unit_testing confirmed : Bool) : PromptOutcome :=
  if unit_testing then PromptOutcome.proceed
  else if confirmed then PromptOutcome.proceed
  else PromptOutcome.commandError cancel_no_instance

/-! ## Region lookup (`_get_googlerun_region`, deploy.py lines 516-535) -/

inductive RegionOutcome
  | ok (region : String)
  | fatal (msg : String)
deriving DecidableEq, Repr

/-- True exactly on the `fatal` outcome. -/
def RegionOutcome.isFatal : RegionOutcome → Bool
  | RegionOutcome.fatal _ => true
  | _ => false

/-- `PlatformDeployer._get_googlerun_region` (deploy.py lines 516-535), as a
function of `self.sd.region` (`none`/empty meaning unset, per Python
truthiness) and the stripped stdout of `gcloud config get-value run/region`.
The source has no error path: an empty gcloud answer selects the default
region `"us-central1"` and the run continues. -/
def get_googlerun_region (sd_region : Option String) (gcloud_region : String) :
    RegionOutcome :=
  let fallback :=
    if gcloud_region.isEmpty then RegionOutcome.ok "us-central1"
    else RegionOutcome.ok gcloud_region
  match sd_region with
  | some r =>
    if r.isEmpty then fallback
    else if strContains r "platform.sh" then fallback
    else RegionOutcome.ok r
  | none => fallback

/-! ## Command echo and the instance-creation display (`run`, `_create_db`)

`PlatformDeployer.run` (deploy.py lines 38-57) always starts with
`print("🪵 \x1b[34m", re.sub(" +", " ", cmd), "\x1b[00m")`; Python's `print`
joins its arguments with single spaces, so the echoed line is as below.
-/

/-- The line `PlatformDeployer.run` prints for a command (deploy.py line 40). -/
def runEchoLine (cmd : String) : String :=
  "🪵 \x1b[34m " ++ squashSpaces cmd ++ " \x1b[00m"

/-- The instance-creation command built in `PlatformDeployer._create_db`
(deploy.py lines 586-589) before the `--root-password` suffix is appended;
the space runs come from the source's backslash-continued f-string. -/
def create_instance_cmd_base (region project_id : String) : String :=
  "gcloud sql instances create sd-inst                         --database-version POSTGRES_14 --cpu 2 --memory 4GB                          --region " ++ region ++ "                         --project " ++ project_id ++ " "

/-- The messages displayed to the operator on the instance-creation path of
`PlatformDeployer._create_db` (deploy.py lines 583-603), in order: the
confirmation prompt (logged with the redacted command, only when neither
`automate_all` nor `unit_testing` holds, lines 592-598, 716-719) followed by
`run`'s echo of the actual command (line 40 via line 602), which carries the
plaintext `--root-password` value. -/
def create_instance_displayed (automate_all unit_testing : Bool)
    (region project_id instance_pass : String) : List String :=
  let cmd0 := create_instance_cmd_base region project_id
  let cmd_redacted := cmd0 ++ "--root-password [REDACTED]"
  let cmd := cmd0 ++ "--root-password " ++ instance_pass
  (if automate_all then []
   else if unit_testing then []
   else [confirm_create_instance (squashSpaces cmd_redacted)])
  ++ [runEchoLine cmd]

/-! ## Local file mutators (deploy.py lines 287-407)

Each mutator is embedded as a function from the pre-state of the file it
touches (`none` = file absent, `some c` = file present with content `c`) and
the inputs it reads, to the file's post-state content.
-/

/-- The `migrate` process string of `_generate_procfile`
(deploy.py line 295). -/
def migrate_command : String :=
  "migrate: python manage.py migrate && python manage.py collectstatic --noinput"

/-- The `web` process string of `_generate_procfile`
(deploy.py lines 305-308). -/
def proc_command (nested_project : Bool) (project_name : String) : String :=
  if nested_project then
    "web: gunicorn " ++ project_name ++ "." ++ project_name ++ ".wsgi --log-file -"
  else
    "web: gunicorn " ++ project_name ++ ".wsgi --log-file -"

/-- `PlatformDeployer._generate_procfile` (deploy.py lines 287-316): with an
existing Procfile the source opens it in append mode and writes
`"\n" + migrate_command`; with no Procfile it writes `proc_command` and then
`migrate_command` with nothing in between. -/
def generate_procfile (existing : Option String) (nested_project : Bool)
    (project_name : String) : String :=
  match existing with
  | some content => content ++ "\n" ++ migrate_command
  | none => proc_command nested_project project_name ++ migrate_command

/-- `PlatformDeployer._add_gcloudignore` (deploy.py lines 318-359): when a
`.gcloudignore` exists the method returns without touching it; otherwise the
ignore string is built from the active virtualenv (`VIRTUAL_ENV`, `none` or
empty meaning unset) and `self.sd.on_macos`. -/
def add_gcloudignore (existing : Option String) (venv_dir : Option String)
    (on_macos : Bool) : String :=
  match existing with
  | some content => content
  | none =>
    let s := ".git/\n"
    let s := s ++
      (match venv_dir with
       | some v => if v.isEmpty then "" else "\n" ++ pathName v ++ "/\n"
       | none => "")
    let s := s ++ "\n__pycache__/\n*.pyc\n"
    let s := s ++ "\n*.sqlite3\n"
    let s := s ++ (if on_macos then "\n.DS_Store\n" else "")
    s

/-- Modelled from the spec: the `cloudbuild.yaml` template and the
`write_file_from_template` helper live outside the provided sources; the spec
describes the rendered file only as "a build-manifest document parameterized
by {service name, region, image reference, job name}", so the rendering is
modelled as an unspecified document mentioning those four values. -/
def cloudbuildTemplateRender (service region image_name job_name : String) :
    String :=
  "service: " ++ service ++ "\nregion: " ++ region ++ "\nimage: " ++
    image_name ++ "\njob: " ++ job_name ++ "\n"

/-- `PlatformDeployer._add_cloudbuild_yaml` (deploy.py lines 361-381): when a
`cloudbuild.yaml` exists the method only logs; otherwise it renders the
template against `{service, region, image_name, job_name}`. -/
def add_cloudbuild_yaml (existing : Option String)
    (service region image_name job_name : String) : String :=
  match existing with
  | some content => content
  | none => cloudbuildTemplateRender service region image_name job_name

/-! ## Settings mutator (`_modify_settings`, deploy.py lines 383-407)

The guard substring the source searches for, and the
`templates/settings.py` template split at its two `{{ deployed_url }}`
placeholders (the template has no trailing newline).  Rendering is modelled
from the spec: `write_file_from_template` (outside the provided sources)
renders the named template against the context mapping, i.e. substitutes
`{{current_settings}}` and `{{ deployed_url }}` with the context values.
-/

/-- The marker `_modify_settings` searches for (deploy.py line 392). -/
def onCloudrunMarker : String :=
  "if os.environ.get(\"ON_CLOUDRUN\"):"

/-- `templates/settings.py` between `{{current_settings}}` and the first
`{{ deployed_url }}` placeholder. -/
def settingsTemplatePart1 : String :=
  "\n\n\n# --- Settings for Cloud Run ---\nimport os\n\nif os.environ.get(\"ON_CLOUDRUN\"):\n    # Static file configuration needs to take effect during the build process,\n    #   and when deployed.\n    # from https://whitenoise.evans.io/en/stable/#quickstart-for-django-apps\n    STATIC_ROOT = os.path.join(BASE_DIR, \"staticfiles\")\n    STATIC_URL = \"/static/\"\n    STATICFILES_DIRS = (os.path.join(BASE_DIR, \"static\"),)\n    i = MIDDLEWARE.index(\"django.middleware.security.SecurityMiddleware\")\n    MIDDLEWARE.insert(i + 1, \"whitenoise.middleware.WhiteNoiseMiddleware\")\n\n    # Use secret, if set, to update DEBUG value.\n    if os.environ.get(\"DEBUG\") == \"FALSE\":\n        DEBUG = False\n    elif os.environ.get(\"DEBUG\") == \"TRUE\":\n        DEBUG = True\n\n    # Set a Cloud Run-specific allowed host.\n    ALLOWED_HOSTS.append(\""

/-- `templates/settings.py` between the two `{{ deployed_url }}`
placeholders. -/
def settingsTemplatePart2 : String :=
  "\")\n\n    # Prevent CSRF \"Origin checking failed\" issue.\n    CSRF_TRUSTED_ORIGINS = [\"https://"

/-- `templates/settings.py` after the second `{{ deployed_url }}`
placeholder. -/
def settingsTemplatePart3 : String :=
  "\"]\n\n    # Use the Cloud SQL database.\n    import dj_database_url\n\n    db_url = os.environ.get(\"DATABASE_URL\")\n    DATABASES[\"default\"] = dj_database_url.parse(db_url)\n\n    # TODO(glasnt): Remove when jazzband/dj-database-url#181 included in release (1.1.0+)\n    import urllib\n    DATABASES[\"default\"][\"HOST\"] = urllib.parse.unquote(DATABASES[\"default\"][\"HOST\"])"

/-- The rendered `templates/settings.py` for a given `current_settings` and
`deployed_url` context. -/
def renderSettingsTemplate (current_settings deployed_url : String) : String :=
  current_settings ++ settingsTemplatePart1 ++ deployed_url ++
    settingsTemplatePart2 ++ deployed_url ++ settingsTemplatePart3

/-- `PlatformDeployer._modify_settings` (deploy.py lines 383-407) as a
function from the current `settings.py` content and `self.deployed_url` to
the post-state content: if the guard marker is present the file is left
untouched, otherwise the template is rendered with
`deployed_url.replace("https://", "")` as the `deployed_url` context value. -/
def modify_settings (settings_string deployed_url : String) : String :=
  if strContains settings_string onCloudrunMarker then settings_string
  else renderSettingsTemplate settings_string (replaceStr deployed_url "https://" "")

/-! ## Helper lemmas about the string embedding -/

theorem isPrefixList_append (n : List Char) : ∀ (s b : List Char),
    isPrefixList n s = true → isPrefixList n (s ++ b) = true := by
  induction n with
  | nil => intro s b _; rfl
  | cons c cs ih =>
    intro s b h
    cases s with
    | nil => simp [isPrefixList] at h
    | cons d ds =>
      simp only [isPrefixList, Bool.and_eq_true, beq_iff_eq] at h ⊢
      exact ⟨h.1, ih ds b h.2⟩

theorem isInfixOfList_append_right (n : List Char) : ∀ (a b : List Char),
    isInfixOfList n b = true → isInfixOfList n (a ++ b) = true := by
  intro a
  induction a with
  | nil => intro b h; simpa using h
  | cons c cs ih =>
    intro b h
    simp only [List.cons_append, isInfixOfList, Bool.or_eq_true]
    exact Or.inr (ih b h)

theorem isInfixOfList_nil_left : ∀ (l : List Char), isInfixOfList [] l = true := by
  intro l
  cases l with
  | nil => rfl
  | cons c cs => simp [isInfixOfList, isPrefixList]

theorem isInfixOfList_append_left (n : List Char) : ∀ (a b : List Char),
    isInfixOfList n a = true → isInfixOfList n (a ++ b) = true := by
  intro a
  induction a with
  | nil =>
    intro b h
    simp only [isInfixOfList, List.isEmpty_iff] at h
    subst h
    exact isInfixOfList_nil_left b
  | cons c cs ih =>
    intro b h
    simp only [isInfixOfList, Bool.or_eq_true] at h
    simp only [List.cons_append, isInfixOfList, Bool.or_eq_true]
    cases h with
    | inl h =>
      exact Or.inl (by simpa using isPrefixList_append n (c :: cs) b h)
    | inr h => exact Or.inr (ih b h)

theorem string_data_append (a b : String) : (a ++ b).data = a.data ++ b.data := rfl

theorem strContains_append_right (a b n : String)
    (h : strContains b n = true) : strContains (a ++ b) n = true := by
  simpa [strContains, string_data_append] using
    isInfixOfList_append_right n.data a.data b.data h

theorem strContains_append_left (a b n : String)
    (h : strContains a n = true) : strContains (a ++ b) n = true := by
  simpa [strContains, string_data_append] using
    isInfixOfList_append_left n.data a.data b.data h

/-- The rendered settings template always contains the `ON_CLOUDRUN` guard
marker, whatever the surrounding content is. -/
theorem render_contains_marker (s u : String) :
    strContains (renderSettingsTemplate s u) onCloudrunMarker = true := by
  have h1 : strContains settingsTemplatePart1 onCloudrunMarker = true := by decide
  unfold renderSettingsTemplate
  apply strContains_append_left
  apply strContains_append_left
  apply strContains_append_left
  apply strContains_append_left
  apply strContains_append_right
  exact h1

/-- Concatenation preserves and reflects newline-freedom. -/
theorem noNewline_append (a b : String) :
    noNewline (a ++ b) = (noNewline a && noNewline b) := by
  simp [noNewline, string_data_append, List.all_append]

/-! ## Claim theorems -/

/-- C1, counterexample: the probe checks for `"Listed 0 items"` before it
checks for the instance name, so the concrete output
`"sd-inst\nListed 0 items"` — which does contain the instance name
`"sd-inst"` — is classified absent (`false`), contradicting the claim's
clause that every output containing the instance name is classified
present. -/
theorem dbinstance_probe_both_markers_counterexample :
    strContains "sd-inst\nListed 0 items" "sd-inst" = true
    ∧ check_if_dbinstance_exists "sd-inst" "sd-inst\nListed 0 items" = false := by
  decide

/-- C1 (amended): for `_check_if_dbinstance_exists`, every output containing
`"Listed 0 items"` is classified absent (`false`); every output *not*
containing `"Listed 0 items"` but containing the instance name is classified
present (`true`); every output containing neither marker is classified
absent (`false`); the probe is a total function of the output text, so it
never throws. -/
theorem check_if_dbinstance_exists_classification (instance_name output : String) :
    (strContains output "Listed 0 items" = true →
      check_if_dbinstance_exists instance_name output = false)
    ∧ (strContains output "Listed 0 items" = false →
        strContains output instance_name = true →
        check_if_dbinstance_exists instance_name output = true)
    ∧ (strContains output "Listed 0 items" = false →
        strContains output instance_name = false →
        check_if_dbinstance_exists instance_name output = false) := by
  refine ⟨fun h => ?_, fun h1 h2 => ?_, fun h1 h2 => ?_⟩ <;>
    simp [check_if_dbinstance_exists, *]

/-- C1 witness: the three classification clauses evaluated at concrete
CLI outputs. -/
theorem check_if_dbinstance_exists_classification_witness :
    check_if_dbinstance_exists "sd-inst" "Listed 0 items." = false
    ∧ check_if_dbinstance_exists "sd-inst" "NAME sd-inst REGION us-central1" = true
    ∧ check_if_dbinstance_exists "sd-inst" "NAME other-inst" = false :=
  ⟨(check_if_dbinstance_exists_classification "sd-inst" "Listed 0 items.").1
      (by decide),
   (check_if_dbinstance_exists_classification "sd-inst"
      "NAME sd-inst REGION us-central1").2.1 (by decide) (by decide),
   (check_if_dbinstance_exists_classification "sd-inst" "NAME other-inst").2.2
      (by decide) (by decide)⟩

/-- C2: in the user/secret phase of `_create_db`, the probe state
(user exists = true, secret exists = false) always results in
`CommandError(no_database_password("django", "sd-inst"))` — an `error`
result, never a silent continuation. -/
theorem create_db_user_without_secret_fatal :
    create_db_user_secret_phase true false
      = Except.error (no_database_password "django" "sd-inst") := rfl

/-- C3: evaluated at the project name `"mon_projét"`, `_get_service_name`
triggers the confirmation path and the transliteration `"mon-projet"` is
computed, but the value stored in `self.service_name` is the
*untransliterated* `"mon-projét"`, which still contains a non-ASCII
character — `ascii_service_name` is never assigned back (deploy.py
lines 150-167), so the code contradicts the claim (and its own comment
"convert any non-ascii characters to ascii"). -/
theorem service_name_transliteration_not_stored :
    (get_service_name none "mon_projét").service_name = "mon-projét"
    ∧ (get_service_name none "mon_projét").confirm_triggered = true
    ∧ anyascii (replaceUnderscores "mon_projét") = "mon-projet"
    ∧ (get_service_name none "mon_projét").service_name.data.all
        (fun c => decide (c.toNat < 128)) = false := by
  decide

/-- C4, counterexample: declining the database-instance-creation
confirmation does not exit cleanly — `_confirm_create_instance` raises
`CommandError(cancel_no_instance)` (deploy.py lines 722-724), which Django
surfaces as a non-zero exit status, contradicting the claim that every
confirmation decline exits with status 0. -/
theorem instance_confirm_decline_not_clean_exit :
    PromptOutcome.isCleanExit (confirm_create_instance_outcome false false) = false
    ∧ confirm_create_instance_outcome false false
        = PromptOutcome.commandError cancel_no_instance := by
  decide

/-- C4 (amended): declining the preliminary Cloud Run confirmation or the
service-name confirmation makes the process exit successfully (plain
`sys.exit()`, status 0) with an explanatory message, but declining the
database-instance-creation confirmation raises
`CommandError(cancel_no_instance)`, which Django reports as an error exit. -/
theorem confirmation_decline_outcomes :
    confirm_preliminary_outcome false false = PromptOutcome.exitClean cancel_cloudrun
    ∧ service_name_confirm_outcome false = PromptOutcome.exitClean cancel_service_name
    ∧ confirm_create_instance_outcome false false
        = PromptOutcome.commandError cancel_no_instance :=
  ⟨rfl, rfl, rfl⟩

/-- C5: on the instance-creation path of `_create_db` with a concrete root
password, one of the operator-visible lines — `run`'s echo of the creation
command (deploy.py line 40) — contains the plaintext password, even though
the redacted variant (shown in the confirmation prompt) exists and does not
contain it; this contradicts the claim and the source's own comment "As a
general rule, don't share passwords to stdout". -/
theorem create_instance_echo_shows_password :
    ((create_instance_displayed false false "us-central1" "my-project"
        "k7f2qllbw0zz9phihdxr").any
      (fun m => strContains m "k7f2qllbw0zz9phihdxr")) = true
    ∧ strContains
        (confirm_create_instance (squashSpaces (create_instance_cmd_base
          "us-central1" "my-project" ++ "--root-password [REDACTED]")))
        "k7f2qllbw0zz9phihdxr" = false := by
  set_option maxRecDepth 8192 in decide

/-- C6, counterexample: with an existing Procfile, `_generate_procfile` does
mutate the file — it appends the migrate process line — so the claim that a
found marker implies no mutation fails for the Procfile mutator. -/
theorem generate_procfile_mutates_existing :
    generate_procfile (some "web: gunicorn blog.wsgi --log-file -") false "blog"
      ≠ "web: gunicorn blog.wsgi --log-file -" := by
  decide

/-- C6 (amended): when their marker is found, `_add_gcloudignore` and
`_add_cloudbuild_yaml` leave the existing file content unchanged, but
`_generate_procfile` always appends a newline and the migrate process line
to an existing Procfile, so repeated invocation grows that file. -/
theorem mutators_on_existing_files (content : String) (venv_dir : Option String)
    (on_macos nested_project : Bool)
    (project_name service region image_name job_name : String) :
    add_gcloudignore (some content) venv_dir on_macos = content
    ∧ add_cloudbuild_yaml (some content) service region image_name job_name
        = content
    ∧ generate_procfile (some content) nested_project project_name
        = content ++ "\n" ++ migrate_command :=
  ⟨rfl, rfl, rfl⟩

/-- C7: `_modify_settings` is idempotent on the settings content — the first
call renders the template around the existing content, the rendered result
contains the guarded `ON_CLOUDRUN` marker, so the second call detects it and
returns the content unchanged; no duplicate guarded block is added. -/
theorem modify_settings_idempotent (settings_string deployed_url : String) :
    modify_settings (modify_settings settings_string deployed_url) deployed_url
      = modify_settings settings_string deployed_url := by
  unfold modify_settings
  by_cases h : strContains settings_string onCloudrunMarker = true
  · simp [h]
  · simp [h, render_contains_marker]

/-- C8, counterexample: with no usable `--region` and empty
`gcloud config get-value run/region` output, `_get_googlerun_region` does
not report-and-exit — it continues with the default region
`"us-central1"` (deploy.py lines 530-533); the `no_cloudrun_region`
remediation message exists in `deploy_messages.py` but is never used. -/
theorem missing_region_not_fatal :
    RegionOutcome.isFatal (get_googlerun_region none "") = false
    ∧ get_googlerun_region none "" = RegionOutcome.ok "us-central1" := by
  decide

/-- C8 (amended): whenever `self.sd.region` is unset, empty, or contains
`"platform.sh"`, and the gcloud configuration query returns empty output,
`_get_googlerun_region` logs a note and continues with the default region
`"us-central1"` instead of exiting. -/
theorem get_googlerun_region_defaults (sd_region : Option String)
    (h : sd_region = none ∨ sd_region = some "" ∨
      ∃ r, sd_region = some r ∧ strContains r "platform.sh" = true) :
    get_googlerun_region sd_region "" = RegionOutcome.ok "us-central1" := by
  rcases h with h | h | ⟨r, h, hc⟩
  · subst h; decide
  · subst h; decide
  · subst h
    by_cases hr : r.isEmpty
    · simp [get_googlerun_region, hr]; decide
    · simp [get_googlerun_region, hr, hc]; decide

/-- C8 witness: the amended region theorem at the concrete unset
configuration. -/
theorem get_googlerun_region_defaults_witness :
    get_googlerun_region none "" = RegionOutcome.ok "us-central1" :=
  get_googlerun_region_defaults none (Or.inl rfl)

/-- C9: in the user/secret phase of `_create_db`, the probe state
(user exists = false, secret exists = true) matches none of the three
branches: no user is created, no secret is written, no error is raised, and
the run proceeds directly to associating the database with the service. -/
theorem create_db_secret_without_user_silent :
    create_db_user_secret_phase false true
      = Except.ok [DbUserSecretAction.associateDb] := rfl

/-- C10: with no existing Procfile, `_generate_procfile` writes the web
process string immediately followed by the migrate process string with no
separator, and (for a newline-free project name) the generated Procfile is a
single line. -/
theorem generate_procfile_single_line (nested_project : Bool)
    (project_name : String) (h : noNewline project_name = true) :
    generate_procfile none nested_project project_name
      = proc_command nested_project project_name ++ migrate_command
    ∧ noNewline (generate_procfile none nested_project project_name) = true := by
  refine ⟨rfl, ?_⟩
  cases nested_project <;>
    simp [generate_procfile, proc_command, noNewline_append, h] <;> decide

/-- C10 witness: the Procfile theorem at the concrete project name
`"blog"`. -/
theorem generate_procfile_single_line_witness :
    generate_procfile none false "blog"
      = proc_command false "blog" ++ migrate_command
    ∧ noNewline (generate_procfile none false "blog") = true :=
  generate_procfile_single_line false "blog" (by decide)

end CloudRun
